import Mathlib

/-
Shallow embedding of the SAHMK Python client (src/sahmk/client.py).

HTTP side: a client method builds a request (URL, params, headers) and hands it
to a transport; the transport either fails at the network level (modelled as an
`Except.error` with the exception text, mirroring `requests.RequestException`)
or returns an `HttpResponse`.  `SahmkClient._request` then maps the response to
a parsed JSON body or a raised exception, exactly as the Python code does.

WebSocket side: `runStream` embeds `SahmkClient.stream`.  The connection is an
`Except`: either a transport-level connect failure (which the Python code does
not catch) or the in-order list of incoming parsed messages.  The handshake
consumes the first message, the subscribe loop sends one subscribe frame per
batch of 20 symbols and consumes one acknowledgement per frame, and the receive
loop dispatches the remaining messages to the registered handlers.  The
try/finally around the receive loop is embedded by recording, in the result,
that the ping task is cancelled on every path out of the loop.

Python exceptions are modelled by `PyExn`: the library's own `SahmkError` plus
the foreign exceptions that can escape the code (JSON decode errors,
AttributeError from `.get` on a non-dict, websocket transport failures).
-/

/-- JSON values, as produced by json.loads / requests' response.json(). -/
inductive Json where
  | null : Json
  | bool (b : Bool) : Json
  | num (n : Int) : Json
  | str (s : String) : Json
  | arr (elts : List Json) : Json
  | obj (fields : List (String × Json)) : Json

/-- Python dict lookup (dict.get k) on a JSON object's field list; the first
binding wins, as keys of a parsed JSON object are unique. -/
def jlookup (fields : List (String × Json)) (k : String) : Option Json :=
  (fields.find? (fun p => p.1 == k)).map (fun p => p.2)

mutual

/-- Python repr of a JSON value, as used when a value is interpolated inside a
container by str(). -/
def pyReprQ : Json → String
  | .null => "None"
  | .bool b => if b then "True" else "False"
  | .num n => toString n
  | .str s => "'" ++ s ++ "'"
  | .arr elts => "[" ++ pyReprList elts ++ "]"
  | .obj fields => "\x7b" ++ pyReprObj fields ++ "\x7d"

/-- Comma-separated reprs of a list of JSON values. -/
def pyReprList : List Json → String
  | [] => ""
  | [x] => pyReprQ x
  | x :: y :: rest => pyReprQ x ++ ", " ++ pyReprList (y :: rest)

/-- Comma-separated reprs of the fields of a JSON object. -/
def pyReprObj : List (String × Json) → String
  | [] => ""
  | [(k, v)] => "'" ++ k ++ "': " ++ pyReprQ v
  | (k, v) :: p :: rest => "'" ++ k ++ "': " ++ pyReprQ v ++ ", " ++ pyReprObj (p :: rest)

end

/-- Python str() of a JSON value, as used by f-string interpolation: a string
interpolates as itself, anything else as its repr (None as "None"). -/
def pyStr : Json → String
  | .str s => s
  | j => pyReprQ j

/-- Python str() of dict.get's result, which may be None (absent key). -/
def pyStrOpt (o : Option Json) : String :=
  pyStr (o.getD .null)

/-- An HTTP response as seen through the requests library: the status code, the
result of response.json() (none when the body is not valid JSON, in which case
response.json() raises a ValueError), and response.text. -/
structure HttpResponse where
  status_code : Nat
  jsonBody : Option Json
  text : String

/-- The SahmkError exception class: message, and the optional fields
status_code, error_code and response, which default to None. -/
structure SahmkError where
  message : String
  status_code : Option Nat
  error_code : Option Json
  response : Option HttpResponse

/-- The exceptions that can propagate out of the embedded code: the library's
own SahmkError, plus the foreign exception types the Python code can let
escape. -/
inductive PyExn where
  | sahmk (e : SahmkError)
  | jsonDecodeError (text : String)
  | attributeError
  | connectionClosed
  | handlerException (msg : String)
  | wsConnectError (msg : String)

/-- True exactly when the exception is the library's own typed SahmkError. -/
def PyExn.isSahmk : PyExn → Bool
  | .sahmk _ => true
  | _ => false

/-- True when a computation either succeeded or raised a SahmkError (and
nothing else). -/
def raisesOnlySahmk {α : Type} : Except PyExn α → Bool
  | .ok _ => true
  | .error e => e.isSahmk

/-- The SahmkError raised when the transport raises requests.RequestException. -/
def requestFailedError (e : String) : SahmkError :=
  { message := "Request failed: " ++ e, status_code := none, error_code := none,
    response := none }

/-- The SahmkError raised on an HTTP 429 response. -/
def rateLimitError (resp : HttpResponse) : SahmkError :=
  { message := "Rate limit exceeded. Check X-RateLimit-Remaining header.",
    status_code := some 429,
    error_code := some (.str "RATE_LIMIT"),
    response := some resp }

/-- The status-code dispatch of SahmkClient._request, applied once the
transport has returned a response: 429 raises the rate-limit SahmkError; any
other non-200 status raises a SahmkError whose code/message are read from the
JSON error body when possible (response.json() failures are caught as
ValueError; .get on a non-dict raises an uncaught AttributeError); a 200
response returns the parsed JSON body (response.json() raising an uncaught
JSONDecodeError when the body is not JSON). -/
def handleResponse (response : HttpResponse) : Except PyExn Json :=
  if response.status_code == 429 then
    .error (.sahmk (rateLimitError response))
  else if response.status_code != 200 then
    match response.jsonBody with
    | none =>
      .error (.sahmk { message := "API error " ++ toString response.status_code ++ ": " ++ response.text,
                       status_code := some response.status_code,
                       error_code := some (.str "UNKNOWN"),
                       response := some response })
    | some body =>
      match body with
      | .obj bfields =>
        match (jlookup bfields "error").getD (.obj []) with
        | .obj efields =>
          .error (.sahmk { message := "API error " ++ toString response.status_code ++ ": " ++
                             (match jlookup efields "message" with
                              | some m => pyStr m
                              | none => response.text),
                           status_code := some response.status_code,
                           error_code := some ((jlookup efields "code").getD (.str "UNKNOWN")),
                           response := some response })
        | _ => .error .attributeError
      | _ => .error .attributeError
  else
    match response.jsonBody with
    | none => .error (.jsonDecodeError response.text)
    | some j => .ok j

/-- The module-level default API base URL. -/
def BASE_URL : String := "https://app.sahmk.sa/api/v1"

/-- The module-level WebSocket URL. -/
def WS_URL : String := "wss://app.sahmk.sa/ws/v1/stocks/"

/-- Python str.rstrip with the single character "/": drop every trailing
slash. -/
def rstripSlash (s : String) : String :=
  String.mk ((s.data.reverse.dropWhile (fun c => c == '/')).reverse)

/-- The client's state after SahmkClient.__init__. -/
structure SahmkClient where
  api_key : String
  base_url : String
  timeout : Nat

/-- SahmkClient.__init__: store the API key, the rstripped base URL (falling
back to BASE_URL when the argument is None or empty, since Python's `or` tests
truthiness), and the timeout (whose Python default is 30). -/
def SahmkClient.mk0 (api_key : String) (base_url : Option String) (timeout : Nat) : SahmkClient :=
  { api_key := api_key,
    base_url := rstripSlash (match base_url with
      | some s => if s == "" then BASE_URL else s
      | none => BASE_URL),
    timeout := timeout }

/-- The session headers installed by __init__. -/
def SahmkClient.headers (c : SahmkClient) : List (String × String) :=
  [("X-API-Key", c.api_key)]

/-- An HTTP request as handed to requests.Session.request: method, full URL,
query parameters, and the session headers. -/
structure Request where
  method : String
  url : String
  params : List (String × Json)
  headers : List (String × String)

/-- The request _request builds for a given method, endpoint and params. -/
def SahmkClient.mkRequest (c : SahmkClient) (method endpoint : String)
    (params : List (String × Json)) : Request :=
  { method := method, url := c.base_url ++ endpoint, params := params,
    headers := c.headers }

/-- SahmkClient._request: issue one request over the transport; a transport
failure (requests.RequestException) is re-raised as a SahmkError, a response is
mapped through the status-code dispatch.  The first component records the
requests issued. -/
def SahmkClient._request (c : SahmkClient) (method endpoint : String)
    (params : List (String × Json)) (transport : Except String HttpResponse) :
    List Request × Except PyExn Json :=
  ([c.mkRequest method endpoint params],
    match transport with
    | .error e => .error (.sahmk (requestFailedError e))
    | .ok response => handleResponse response)

/-- Python truthiness filter for an optional string parameter: included only
when present and non-empty (`if value:`). -/
def optStrParam (k : String) (v : Option String) : List (String × Json) :=
  match v with
  | some s => if s == "" then [] else [(k, Json.str s)]
  | none => []

/-- Inclusion test for an optional integer parameter (`if value is not None:`). -/
def optIntParam (k : String) (v : Option Int) : List (String × Json) :=
  match v with
  | some n => [(k, Json.num n)]
  | none => []

/-- SahmkClient.quote. -/
def SahmkClient.quote (c : SahmkClient) (symbol : String)
    (t : Except String HttpResponse) : List Request × Except PyExn Json :=
  c._request "GET" ("/quote/" ++ symbol ++ "/") [] t

/-- SahmkClient.quotes: at most 50 symbols, joined by commas. -/
def SahmkClient.quotes (c : SahmkClient) (symbols : List String)
    (t : Except String HttpResponse) : List Request × Except PyExn Json :=
  if symbols.length > 50 then
    ([], .error (.sahmk { message := "Maximum 50 symbols per batch request",
                          status_code := none, error_code := none, response := none }))
  else
    c._request "GET" "/quotes/" [("symbols", .str (String.intercalate "," symbols))] t

/-- SahmkClient.historical. -/
def SahmkClient.historical (c : SahmkClient) (symbol : String)
    (from_date to_date interval : Option String)
    (t : Except String HttpResponse) : List Request × Except PyExn Json :=
  c._request "GET" ("/historical/" ++ symbol ++ "/")
    (optStrParam "from" from_date ++ optStrParam "to" to_date ++
      optStrParam "interval" interval) t

/-- SahmkClient.market_summary. -/
def SahmkClient.market_summary (c : SahmkClient)
    (t : Except String HttpResponse) : List Request × Except PyExn Json :=
  c._request "GET" "/market/summary/" [] t

/-- SahmkClient.gainers. -/
def SahmkClient.gainers (c : SahmkClient) (limit : Option Int)
    (t : Except String HttpResponse) : List Request × Except PyExn Json :=
  c._request "GET" "/market/gainers/" (optIntParam "limit" limit) t

/-- SahmkClient.losers. -/
def SahmkClient.losers (c : SahmkClient) (limit : Option Int)
    (t : Except String HttpResponse) : List Request × Except PyExn Json :=
  c._request "GET" "/market/losers/" (optIntParam "limit" limit) t

/-- SahmkClient.volume_leaders. -/
def SahmkClient.volume_leaders (c : SahmkClient) (limit : Option Int)
    (t : Except String HttpResponse) : List Request × Except PyExn Json :=
  c._request "GET" "/market/volume/" (optIntParam "limit" limit) t

/-- SahmkClient.value_leaders. -/
def SahmkClient.value_leaders (c : SahmkClient) (limit : Option Int)
    (t : Except String HttpResponse) : List Request × Except PyExn Json :=
  c._request "GET" "/market/value/" (optIntParam "limit" limit) t

/-- SahmkClient.sectors. -/
def SahmkClient.sectors (c : SahmkClient)
    (t : Except String HttpResponse) : List Request × Except PyExn Json :=
  c._request "GET" "/market/sectors/" [] t

/-- SahmkClient.company. -/
def SahmkClient.company (c : SahmkClient) (symbol : String)
    (t : Except String HttpResponse) : List Request × Except PyExn Json :=
  c._request "GET" ("/company/" ++ symbol ++ "/") [] t

/-- SahmkClient.financials. -/
def SahmkClient.financials (c : SahmkClient) (symbol : String)
    (t : Except String HttpResponse) : List Request × Except PyExn Json :=
  c._request "GET" ("/financials/" ++ symbol ++ "/") [] t

/-- SahmkClient.dividends. -/
def SahmkClient.dividends (c : SahmkClient) (symbol : String)
    (t : Except String HttpResponse) : List Request × Except PyExn Json :=
  c._request "GET" ("/dividends/" ++ symbol ++ "/") [] t

/-- SahmkClient.events: the symbol filter is included only when truthy, limit
when not None. -/
def SahmkClient.events (c : SahmkClient) (symbol : Option String)
    (limit : Option Int)
    (t : Except String HttpResponse) : List Request × Except PyExn Json :=
  c._request "GET" "/events/"
    (optStrParam "symbol" symbol ++ optIntParam "limit" limit) t

/-- The subscribe frame sent for one batch of symbols:
json.dumps of the dict with action "subscribe" and the batch. -/
def subscribeMsg (batch : List String) : Json :=
  .obj [("action", .str "subscribe"), ("symbols", .arr (batch.map .str))]

/-- Python equality test `value == s` for the result of dict.get("type"). -/
def isTypeStr (t : Option Json) (s : String) : Bool :=
  match t with
  | some (.str v) => v == s
  | _ => false

/-- True when the message is a dict whose "type" field equals "error". -/
def isErrorTyped (j : Json) : Bool :=
  match j with
  | .obj fields => isTypeStr (jlookup fields "type") "error"
  | _ => false

/-- True when the parsed JSON value is a dict. -/
def isObjJson (j : Json) : Bool :=
  match j with
  | .obj _ => true
  | _ => false

/-- A handshake/acknowledgement message the stream code accepts and moves past:
a dict whose "type" field is not "error". -/
def okHandshakeMsg (j : Json) : Bool :=
  isObjJson j && !isErrorTyped j

/-- dict.get on a message (None when the message is not a dict). -/
def msgField (j : Json) (k : String) : Option Json :=
  match j with
  | .obj fields => jlookup fields k
  | _ => none

/-- The symbol batches of SahmkClient.stream:
for i in range(0, len(symbols), 20): symbols[i : i + 20]. -/
def pyBatches (symbols : List String) : List (List String) :=
  (List.range ((symbols.length + 19) / 20)).map
    (fun j => (symbols.drop (20 * j)).take 20)

/-- The subscribe loop of stream over the precomputed batches: send the
subscribe frame for the batch, then read one acknowledgement; an
acknowledgement of type "error" raises a SahmkError, a non-dict one raises an
AttributeError, a closed stream raises ConnectionClosed.  Returns the frames
sent and either the exception or the remaining incoming messages. -/
def subscribeLoop : List (List String) → List Json → List Json × Except PyExn (List Json)
  | [], incoming => ([], .ok incoming)
  | batch :: rest, incoming =>
    match incoming with
    | [] => ([subscribeMsg batch], .error .connectionClosed)
    | ack :: inc =>
      match ack with
      | .obj fields =>
        if isTypeStr (jlookup fields "type") "error" then
          ([subscribeMsg batch],
           .error (.sahmk { message := "Subscribe error: " ++ pyStrOpt (jlookup fields "message"),
                            status_code := none, error_code := none, response := none }))
        else
          let r := subscribeLoop rest inc
          (subscribeMsg batch :: r.1, r.2)
      | _ => ([subscribeMsg batch], .error .attributeError)

/-- The receive loop of stream: for each incoming message, dispatch a
"quote"-typed dict to on_quote when registered and an "error"-typed dict to
on_error when registered; other types are ignored.  A handler may raise, which
ends the loop with its exception; a non-dict message raises AttributeError at
data.get.  Returns the dispatch trace (handler name and the data passed) and
the loop's outcome. -/
def receiveLoop (onQuote onError : Option (Json → Option String)) :
    List Json → List (String × Json) × Except PyExn Unit
  | [] => ([], .ok ())
  | m :: rest =>
    match m with
    | .obj fields =>
      if isTypeStr (jlookup fields "type") "quote" then
        match onQuote with
        | some h =>
          match h m with
          | some exn => ([("on_quote", m)], .error (.handlerException exn))
          | none =>
            let r := receiveLoop onQuote onError rest
            (("on_quote", m) :: r.1, r.2)
        | none => receiveLoop onQuote onError rest
      else if isTypeStr (jlookup fields "type") "error" then
        match onError with
        | some h =>
          match h m with
          | some exn => ([("on_error", m)], .error (.handlerException exn))
          | none =>
            let r := receiveLoop onQuote onError rest
            (("on_error", m) :: r.1, r.2)
        | none => receiveLoop onQuote onError rest
      else
        receiveLoop onQuote onError rest
    | _ => ([], .error .attributeError)

/-- What one streaming session did: the subscribe frames sent, the dispatch
trace, whether the keep-alive ping task was started and whether it was
cancelled, and how the session ended. -/
structure StreamResult where
  subscribesSent : List Json
  dispatched : List (String × Json)
  pingStarted : Bool
  pingCancelled : Bool
  outcome : Except PyExn Unit

/-- SahmkClient.stream: connect (an uncaught transport failure propagates as
the websocket library's exception), read one message and fail on an
"error"-typed one, run the subscribe loop over the 20-symbol batches, start the
ping task, then dispatch incoming messages until the connection closes or a
handler raises; the try/finally cancels the ping task on every path out of the
receive loop. -/
def runStream (symbols : List String) (onQuote onError : Option (Json → Option String))
    (connect : Except String (List Json)) : StreamResult :=
  match connect with
  | .error e =>
    { subscribesSent := [], dispatched := [], pingStarted := false,
      pingCancelled := false, outcome := .error (.wsConnectError e) }
  | .ok incoming =>
    match incoming with
    | [] =>
      { subscribesSent := [], dispatched := [], pingStarted := false,
        pingCancelled := false, outcome := .error .connectionClosed }
    | m :: rest =>
      match m with
      | .obj fields =>
        if isTypeStr (jlookup fields "type") "error" then
          { subscribesSent := [], dispatched := [], pingStarted := false,
            pingCancelled := false,
            outcome := .error (.sahmk { message := "WebSocket error: " ++ pyStrOpt (jlookup fields "message"),
                                        status_code := none, error_code := none,
                                        response := none }) }
        else
          let sl := subscribeLoop (pyBatches symbols) rest
          match sl.2 with
          | .error e =>
            { subscribesSent := sl.1, dispatched := [], pingStarted := false,
              pingCancelled := false, outcome := .error e }
          | .ok tail =>
            let rl := receiveLoop onQuote onError tail
            { subscribesSent := sl.1, dispatched := rl.1, pingStarted := true,
              pingCancelled := true, outcome := rl.2 }
      | _ =>
        { subscribesSent := [], dispatched := [], pingStarted := false,
          pingCancelled := false, outcome := .error .attributeError }

/-- The dispatch rule of the receive loop when both handlers are registered:
which handler a message goes to, if any. -/
def dispatchRule (m : Json) : Option (String × Json) :=
  match m with
  | .obj fields =>
    if isTypeStr (jlookup fields "type") "quote" then some ("on_quote", m)
    else if isTypeStr (jlookup fields "type") "error" then some ("on_error", m)
    else none
  | _ => none

/-- The non-200 response bodies on which _request raises its SahmkError rather
than letting an AttributeError escape: an unparsable body (the ValueError is
caught), or a dict whose optional "error" field is itself a dict. -/
def safeErrorBody (b : Option Json) : Bool :=
  match b with
  | none => true
  | some (.obj bfields) =>
    match (jlookup bfields "error").getD (.obj []) with
    | .obj _ => true
    | _ => false
  | some _ => false

/-- Batching an empty symbol list yields no batches. -/
theorem pyBatches_nil : pyBatches [] = [] := rfl

/-- Unfolding rule of the Python batching loop: a non-empty list yields its
first 20 symbols and then the batches of the rest. -/
theorem pyBatches_cons (xs : List String) (h : xs ≠ []) :
    pyBatches xs = xs.take 20 :: pyBatches (xs.drop 20) := by
  have h1 : 0 < xs.length := List.length_pos.mpr h
  unfold pyBatches
  have h2 : (xs.length + 19) / 20 = ((xs.drop 20).length + 19) / 20 + 1 := by
    simp only [List.length_drop]
    omega
  rw [h2, List.range_succ_eq_map]
  simp only [List.map_cons, List.map_map, Nat.mul_zero, List.drop_zero]
  congr 1
  apply List.map_congr_left
  intro j _
  simp only [Function.comp]
  rw [List.drop_drop]
  congr 2
  omega

/-- The in-order concatenation of the batches is the input symbol list. -/
theorem pyBatches_flatten (xs : List String) : (pyBatches xs).flatten = xs := by
  by_cases h : xs = []
  · subst h; rfl
  · rw [pyBatches_cons xs h]
    rw [List.flatten_cons]
    rw [pyBatches_flatten (xs.drop 20)]
    exact List.take_append_drop 20 xs
termination_by xs.length
decreasing_by
  simp only [List.length_drop]
  have : 0 < xs.length := List.length_pos.mpr h
  omega

/-- There are exactly ceil(n / 20) batches for n symbols. -/
theorem pyBatches_length (xs : List String) :
    (pyBatches xs).length = (xs.length + 19) / 20 := by
  simp [pyBatches]

/-- Every batch holds at most 20 symbols. -/
theorem pyBatches_mem_le (xs : List String) (b : List String)
    (hb : b ∈ pyBatches xs) : b.length ≤ 20 := by
  simp only [pyBatches, List.mem_map, List.mem_range] at hb
  obtain ⟨j, _, rfl⟩ := hb
  exact List.length_take_le 20 _

/-- When one well-typed non-error acknowledgement arrives per batch, the
subscribe loop sends exactly the subscribe frame of every batch in order and
leaves the remaining incoming messages for the receive loop. -/
theorem subscribeLoop_all_ok (chunks : List (List String)) :
    ∀ (acks tail : List Json), acks.length = chunks.length →
    acks.all okHandshakeMsg = true →
    subscribeLoop chunks (acks ++ tail) = (chunks.map subscribeMsg, .ok tail) := by
  induction chunks with
  | nil =>
    intro acks tail hlen _
    have : acks = [] := List.eq_nil_of_length_eq_zero hlen
    subst this
    simp [subscribeLoop]
  | cons batch rest ih =>
    intro acks tail hlen hall
    cases acks with
    | nil => simp at hlen
    | cons a as =>
      simp only [List.all_cons, Bool.and_eq_true] at hall
      obtain ⟨ha, has⟩ := hall
      cases a with
      | obj fields =>
        have hne : isTypeStr (jlookup fields "type") "error" = false := by
          simp only [okHandshakeMsg, isObjJson, isErrorTyped, Bool.true_and,
            Bool.not_eq_true'] at ha
          exact ha
        simp only [List.cons_append, subscribeLoop, hne, Bool.false_eq_true, if_false,
          ite_false]
        rw [ih as tail (by simpa using hlen) has]
        rfl
      | null => simp [okHandshakeMsg, isObjJson] at ha
      | bool b => simp [okHandshakeMsg, isObjJson] at ha
      | num n => simp [okHandshakeMsg, isObjJson] at ha
      | str s => simp [okHandshakeMsg, isObjJson] at ha
      | arr elts => simp [okHandshakeMsg, isObjJson] at ha

/-- When the acknowledgement of some batch has type "error" (all earlier ones
being accepted), the loop has sent exactly the frames of the batches up to and
including that one and raises the Subscribe error SahmkError. -/
theorem subscribeLoop_error_ack (chunks : List (List String)) :
    ∀ (acks : List Json) (a : Json) (tail : List Json),
    acks.all okHandshakeMsg = true → isErrorTyped a = true →
    acks.length < chunks.length →
    subscribeLoop chunks (acks ++ a :: tail) =
      ((chunks.take (acks.length + 1)).map subscribeMsg,
       .error (.sahmk { message := "Subscribe error: " ++ pyStrOpt (msgField a "message"),
                        status_code := none, error_code := none, response := none })) := by
  induction chunks with
  | nil => intro acks a tail _ _ hlt; simp at hlt
  | cons batch rest ih =>
    intro acks a tail hall herr hlt
    cases acks with
    | nil =>
      cases a with
      | obj fields =>
        have ht : isTypeStr (jlookup fields "type") "error" = true := by
          simpa [isErrorTyped] using herr
        simp [subscribeLoop, ht, msgField]
      | null => simp [isErrorTyped] at herr
      | bool b => simp [isErrorTyped] at herr
      | num n => simp [isErrorTyped] at herr
      | str s => simp [isErrorTyped] at herr
      | arr elts => simp [isErrorTyped] at herr
    | cons x xs =>
      simp only [List.all_cons, Bool.and_eq_true] at hall
      obtain ⟨hx, hxs⟩ := hall
      cases x with
      | obj fields =>
        have hne : isTypeStr (jlookup fields "type") "error" = false := by
          simp only [okHandshakeMsg, isObjJson, isErrorTyped, Bool.true_and,
            Bool.not_eq_true'] at hx
          exact hx
        simp only [List.cons_append, subscribeLoop, hne, Bool.false_eq_true, if_false,
          ite_false]
        rw [ih xs a tail hxs herr (by simpa using hlt)]
        simp [List.length_cons]
      | null => simp [okHandshakeMsg, isObjJson] at hx
      | bool b => simp [okHandshakeMsg, isObjJson] at hx
      | num n => simp [okHandshakeMsg, isObjJson] at hx
      | str s => simp [okHandshakeMsg, isObjJson] at hx
      | arr elts => simp [okHandshakeMsg, isObjJson] at hx

/-- With both handlers registered and never raising, the receive loop over
well-typed messages dispatches exactly per the dispatch rule and ends
normally. -/
theorem receiveLoop_pure (hq he : Json → Option String)
    (hqn : ∀ x, hq x = none) (hen : ∀ x, he x = none) :
    ∀ tail : List Json, tail.all isObjJson = true →
    receiveLoop (some hq) (some he) tail = (tail.filterMap dispatchRule, .ok ()) := by
  intro tail
  induction tail with
  | nil => intro _; simp [receiveLoop]
  | cons m rest ih =>
    intro hall
    simp only [List.all_cons, Bool.and_eq_true] at hall
    obtain ⟨hm, hrest⟩ := hall
    cases m with
    | obj fields =>
      by_cases hqt : isTypeStr (jlookup fields "type") "quote" = true
      · simp only [receiveLoop, hqt, if_true, hqn, List.filterMap_cons, dispatchRule,
          ite_true]
        rw [ih hrest]
      · by_cases het : isTypeStr (jlookup fields "type") "error" = true
        · simp only [receiveLoop, hqt, het, if_true, if_false, hen, List.filterMap_cons,
            dispatchRule, Bool.false_eq_true, ite_false, ite_true]
          rw [ih hrest]
        · simp only [Bool.not_eq_true] at hqt het
          simp only [receiveLoop, hqt, het, Bool.false_eq_true, if_false,
            List.filterMap_cons, dispatchRule, ite_false]
          exact ih hrest
    | null => simp [isObjJson] at hm
    | bool b => simp [isObjJson] at hm
    | num n => simp [isObjJson] at hm
    | str s => simp [isObjJson] at hm
    | arr elts => simp [isObjJson] at hm

/-- A streaming session whose handshake succeeds (first message and one
acknowledgement per batch accepted) sends the subscribe frame of every batch,
starts and cancels the ping task, and hands the remaining messages to the
receive loop. -/
theorem runStream_handshake_ok (symbols : List String)
    (onQuote onError : Option (Json → Option String))
    (m0fields : List (String × Json)) (acks tail : List Json)
    (h0 : isTypeStr (jlookup m0fields "type") "error" = false)
    (hlen : acks.length = (pyBatches symbols).length)
    (hall : acks.all okHandshakeMsg = true) :
    runStream symbols onQuote onError (.ok (Json.obj m0fields :: (acks ++ tail))) =
      { subscribesSent := (pyBatches symbols).map subscribeMsg,
        dispatched := (receiveLoop onQuote onError tail).1,
        pingStarted := true, pingCancelled := true,
        outcome := (receiveLoop onQuote onError tail).2 } := by
  simp only [runStream, h0, Bool.false_eq_true, if_false, ite_false]
  rw [subscribeLoop_all_ok (pyBatches symbols) acks tail hlen hall]

/-- A streaming session whose subscribe handshake is rejected at some batch
stops there: exactly the frames up to the rejected batch were sent, no message
is dispatched, the ping task was never started, and the Subscribe error
SahmkError is raised. -/
theorem runStream_handshake_err_ack (symbols : List String)
    (onQuote onError : Option (Json → Option String))
    (m0fields : List (String × Json)) (acks : List Json) (a : Json) (tail : List Json)
    (h0 : isTypeStr (jlookup m0fields "type") "error" = false)
    (hall : acks.all okHandshakeMsg = true) (herr : isErrorTyped a = true)
    (hlt : acks.length < (pyBatches symbols).length) :
    runStream symbols onQuote onError (.ok (Json.obj m0fields :: (acks ++ a :: tail))) =
      { subscribesSent := ((pyBatches symbols).take (acks.length + 1)).map subscribeMsg,
        dispatched := [], pingStarted := false, pingCancelled := false,
        outcome := .error (.sahmk { message := "Subscribe error: " ++ pyStrOpt (msgField a "message"),
                                    status_code := none, error_code := none,
                                    response := none }) } := by
  simp only [runStream, h0, Bool.false_eq_true, if_false, ite_false]
  rw [subscribeLoop_error_ack (pyBatches symbols) acks a tail hall herr hlt]

/-- A message whose "type" equals one string does not have another as its
type. -/
theorem isTypeStr_ne (t : Option Json) (s1 s2 : String) (hne : s1 ≠ s2)
    (h : isTypeStr t s1 = true) : isTypeStr t s2 = false := by
  match t with
  | none => simp [isTypeStr] at h
  | some (.str v) =>
    simp only [isTypeStr, beq_iff_eq] at h ⊢
    subst h
    simpa using hne
  | some .null => simp [isTypeStr] at h
  | some (.bool b) => simp [isTypeStr] at h
  | some (.num n) => simp [isTypeStr] at h
  | some (.arr elts) => simp [isTypeStr] at h
  | some (.obj fields) => simp [isTypeStr] at h

/-- C1 (counterexample): a response whose status code 201 lies in the 2xx
range but is not 200, with a valid JSON body, does not make quote return the
parsed body; _request compares the status against 200 exactly and raises a
SahmkError carrying status 201. -/
theorem quote_status201_raises :
    (SahmkClient.mk0 "key" none 30).quote "2222"
      (.ok { status_code := 201, jsonBody := some (.obj []), text := "created" }) =
    ([{ method := "GET", url := "https://app.sahmk.sa/api/v1/quote/2222/", params := [],
        headers := [("X-API-Key", "key")] }],
     .error (.sahmk { message := "API error 201: created", status_code := some 201,
                      error_code := some (.str "UNKNOWN"),
                      response := some { status_code := 201, jsonBody := some (.obj []),
                                         text := "created" } })) := rfl

/-- C1 (amended): a response with status code exactly 200 makes the method
return the parsed JSON body; a response with any other status code (429 being
handled separately) makes it raise a SahmkError whose status_code equals the
response's status code and whose error_code and message are taken from the
provider's error body when present. -/
theorem request_success_and_error_mapping (c : SahmkClient) (method endpoint : String)
    (params : List (String × Json)) (resp : HttpResponse) (j code : Json)
    (bfields efields : List (String × Json)) (msg : String) :
    (resp.status_code = 200 → resp.jsonBody = some j →
      (c._request method endpoint params (.ok resp)).2 = .ok j) ∧
    (resp.status_code ≠ 200 → resp.status_code ≠ 429 →
      resp.jsonBody = some (.obj bfields) →
      jlookup bfields "error" = some (.obj efields) →
      jlookup efields "code" = some code →
      jlookup efields "message" = some (.str msg) →
      (c._request method endpoint params (.ok resp)).2 =
        .error (.sahmk { message := "API error " ++ toString resp.status_code ++ ": " ++ msg,
                         status_code := some resp.status_code, error_code := some code,
                         response := some resp })) := by
  constructor
  · intro h200 hbody
    simp [SahmkClient._request, handleResponse, h200, hbody]
  · intro h200 h429 hbody herr hcode hmsg
    have b429 : (resp.status_code == 429) = false := by simpa using h429
    have b200 : (resp.status_code != 200) = true := by simpa using h200
    simp [SahmkClient._request, handleResponse, b429, b200, hbody, herr, hcode, hmsg, pyStr]

/-- C1 (witness): a 200 response returns its parsed body; a 404 response with
a provider error body raises the SahmkError built from that body. -/
theorem request_success_and_error_mapping_witness :
    ((SahmkClient.mk0 "key" none 30)._request "GET" "/quote/2222/" []
        (.ok { status_code := 200, jsonBody := some (.obj [("price", .num 30)]), text := "b" })).2 =
      .ok (.obj [("price", .num 30)]) ∧
    ((SahmkClient.mk0 "key" none 30)._request "GET" "/quote/9999/" []
        (.ok { status_code := 404,
               jsonBody := some (.obj [("error", .obj [("code", .str "NOT_FOUND"),
                                                       ("message", .str "no such symbol")])]),
               text := "raw" })).2 =
      .error (.sahmk { message := "API error 404: no such symbol", status_code := some 404,
                       error_code := some (.str "NOT_FOUND"),
                       response := some { status_code := 404,
                                          jsonBody := some (.obj [("error", .obj [("code", .str "NOT_FOUND"),
                                                                                  ("message", .str "no such symbol")])]),
                                          text := "raw" } }) :=
  ⟨(request_success_and_error_mapping (SahmkClient.mk0 "key" none 30) "GET" "/quote/2222/" []
      { status_code := 200, jsonBody := some (.obj [("price", .num 30)]), text := "b" }
      (.obj [("price", .num 30)]) (.str "NOT_FOUND") [] [] "x").1 rfl rfl,
   (request_success_and_error_mapping (SahmkClient.mk0 "key" none 30) "GET" "/quote/9999/" []
      { status_code := 404,
        jsonBody := some (.obj [("error", .obj [("code", .str "NOT_FOUND"),
                                                ("message", .str "no such symbol")])]),
        text := "raw" }
      (.obj []) (.str "NOT_FOUND")
      [("error", .obj [("code", .str "NOT_FOUND"), ("message", .str "no such symbol")])]
      [("code", .str "NOT_FOUND"), ("message", .str "no such symbol")]
      "no such symbol").2 (by decide) (by decide) rfl rfl rfl rfl⟩

/-- C2: a 429 response makes _request raise the SahmkError with status_code
429 and error_code "RATE_LIMIT" regardless of the response body, while a
network-level request failure raises a SahmkError with no status code and no
error code, so the two are distinguishable by status. -/
theorem rate_limit_and_network_errors (c : SahmkClient) (method endpoint : String)
    (params : List (String × Json)) (resp : HttpResponse) (e : String)
    (h : resp.status_code = 429) :
    (c._request method endpoint params (.ok resp)).2 = .error (.sahmk (rateLimitError resp)) ∧
    (rateLimitError resp).status_code = some 429 ∧
    (rateLimitError resp).error_code = some (.str "RATE_LIMIT") ∧
    (c._request method endpoint params (.error e)).2 = .error (.sahmk (requestFailedError e)) ∧
    (requestFailedError e).status_code = none ∧
    (requestFailedError e).error_code = none ∧
    (rateLimitError resp).status_code ≠ (requestFailedError e).status_code := by
  refine ⟨?_, rfl, rfl, rfl, rfl, rfl, by simp [rateLimitError, requestFailedError]⟩
  simp [SahmkClient._request, handleResponse, h]

/-- C2 (witness): the rate-limit mapping at a concrete 429 response whose body
carries a different provider code, and a concrete network failure. -/
theorem rate_limit_and_network_errors_witness :
    ((SahmkClient.mk0 "k" none 30)._request "GET" "/quote/2222/" []
        (.ok { status_code := 429, jsonBody := some (.obj [("error", .obj [("code", .str "X")])]), text := "" })).2 =
      .error (.sahmk (rateLimitError { status_code := 429, jsonBody := some (.obj [("error", .obj [("code", .str "X")])]), text := "" })) ∧
    (rateLimitError { status_code := 429, jsonBody := some (.obj [("error", .obj [("code", .str "X")])]), text := "" }).status_code = some 429 ∧
    (rateLimitError { status_code := 429, jsonBody := some (.obj [("error", .obj [("code", .str "X")])]), text := "" }).error_code = some (.str "RATE_LIMIT") ∧
    ((SahmkClient.mk0 "k" none 30)._request "GET" "/quote/2222/" [] (.error "timed out")).2 =
      .error (.sahmk (requestFailedError "timed out")) ∧
    (requestFailedError "timed out").status_code = none ∧
    (requestFailedError "timed out").error_code = none ∧
    (rateLimitError { status_code := 429, jsonBody := some (.obj [("error", .obj [("code", .str "X")])]), text := "" }).status_code ≠
      (requestFailedError "timed out").status_code :=
  rate_limit_and_network_errors (SahmkClient.mk0 "k" none 30) "GET" "/quote/2222/" []
    { status_code := 429, jsonBody := some (.obj [("error", .obj [("code", .str "X")])]), text := "" }
    "timed out" rfl

/-- C3: on a successful handshake, stream sends exactly ceil(n / 20) subscribe
frames of the form (action subscribe, symbols batch); every batch holds at
most 20 symbols and the in-order concatenation of the batches is the input
list. -/
theorem stream_subscribe_batching (symbols : List String)
    (onQuote onError : Option (Json → Option String))
    (m0fields : List (String × Json)) (acks tail : List Json)
    (h0 : isTypeStr (jlookup m0fields "type") "error" = false)
    (hlen : acks.length = (pyBatches symbols).length)
    (hall : acks.all okHandshakeMsg = true) :
    (runStream symbols onQuote onError (.ok (Json.obj m0fields :: (acks ++ tail)))).subscribesSent =
      (pyBatches symbols).map subscribeMsg ∧
    (runStream symbols onQuote onError (.ok (Json.obj m0fields :: (acks ++ tail)))).subscribesSent.length =
      (symbols.length + 19) / 20 ∧
    (∀ b ∈ pyBatches symbols, b.length ≤ 20) ∧
    (pyBatches symbols).flatten = symbols := by
  rw [runStream_handshake_ok symbols onQuote onError m0fields acks tail h0 hlen hall]
  refine ⟨rfl, ?_, fun b hb => pyBatches_mem_le symbols b hb, pyBatches_flatten symbols⟩
  simp [pyBatches_length]

/-- C3 (witness): 21 symbols are subscribed in exactly two batches whose
concatenation is the input list. -/
theorem stream_subscribe_batching_witness :
    (runStream (List.replicate 21 "2222") none none
      (.ok (Json.obj [("type", .str "hello")] ::
        ([Json.obj [("type", .str "subscribed")], Json.obj [("type", .str "subscribed")]] ++ [])))).subscribesSent =
      (pyBatches (List.replicate 21 "2222")).map subscribeMsg ∧
    (runStream (List.replicate 21 "2222") none none
      (.ok (Json.obj [("type", .str "hello")] ::
        ([Json.obj [("type", .str "subscribed")], Json.obj [("type", .str "subscribed")]] ++ [])))).subscribesSent.length =
      ((List.replicate 21 "2222").length + 19) / 20 ∧
    (∀ b ∈ pyBatches (List.replicate 21 "2222"), b.length ≤ 20) ∧
    (pyBatches (List.replicate 21 "2222")).flatten = List.replicate 21 "2222" :=
  stream_subscribe_batching (List.replicate 21 "2222") none none
    [("type", .str "hello")]
    [Json.obj [("type", .str "subscribed")], Json.obj [("type", .str "subscribed")]] []
    rfl (by decide) rfl

/-- C4 (counterexample): with both handlers registered, a session that
receives a "ping"-typed message dispatches nothing for it and completes; there
is no handler a ping message could ever be dispatched to. -/
theorem stream_ping_message_not_dispatched :
    (runStream [] (some (fun _ => none)) (some (fun _ => none))
      (.ok [Json.obj [("type", .str "hello")], Json.obj [("type", .str "ping")]])).dispatched = [] ∧
    (runStream [] (some (fun _ => none)) (some (fun _ => none))
      (.ok [Json.obj [("type", .str "hello")], Json.obj [("type", .str "ping")]])).outcome = .ok () :=
  ⟨rfl, rfl⟩

/-- C4 (amended): after a successful handshake, with both handlers registered
and not raising, every "quote"-typed message is dispatched to on_quote and
every "error"-typed message to on_error, with none dropped; "ping"-typed
messages are dispatched to no handler (none can be registered for them). -/
theorem stream_dispatch_by_type (symbols : List String)
    (hq he : Json → Option String) (hqn : ∀ x, hq x = none) (hen : ∀ x, he x = none)
    (m0fields : List (String × Json)) (acks tail : List Json)
    (h0 : isTypeStr (jlookup m0fields "type") "error" = false)
    (hlen : acks.length = (pyBatches symbols).length)
    (hall : acks.all okHandshakeMsg = true)
    (htail : tail.all isObjJson = true) :
    (runStream symbols (some hq) (some he) (.ok (Json.obj m0fields :: (acks ++ tail)))).dispatched =
      tail.filterMap dispatchRule ∧
    (∀ m ∈ tail, ∀ fields, m = Json.obj fields →
      isTypeStr (jlookup fields "type") "quote" = true →
      ("on_quote", m) ∈
        (runStream symbols (some hq) (some he) (.ok (Json.obj m0fields :: (acks ++ tail)))).dispatched) ∧
    (∀ m ∈ tail, ∀ fields, m = Json.obj fields →
      isTypeStr (jlookup fields "type") "error" = true →
      ("on_error", m) ∈
        (runStream symbols (some hq) (some he) (.ok (Json.obj m0fields :: (acks ++ tail)))).dispatched) ∧
    (∀ m, isTypeStr (msgField m "type") "ping" = true → dispatchRule m = none) := by
  have hrun : (runStream symbols (some hq) (some he) (.ok (Json.obj m0fields :: (acks ++ tail)))).dispatched =
      tail.filterMap dispatchRule := by
    rw [runStream_handshake_ok symbols (some hq) (some he) m0fields acks tail h0 hlen hall]
    rw [receiveLoop_pure hq he hqn hen tail htail]
  refine ⟨hrun, ?_, ?_, ?_⟩
  · intro m hm fields hfields hquote
    rw [hrun]
    rw [List.mem_filterMap]
    refine ⟨m, hm, ?_⟩
    subst hfields
    simp [dispatchRule, hquote]
  · intro m hm fields hfields herror
    rw [hrun]
    rw [List.mem_filterMap]
    refine ⟨m, hm, ?_⟩
    subst hfields
    have hnq : isTypeStr (jlookup fields "type") "quote" = false :=
      isTypeStr_ne (jlookup fields "type") "error" "quote" (by decide) herror
    simp [dispatchRule, hnq, herror]
  · intro m hping
    cases m with
    | obj fields =>
      simp only [msgField] at hping
      have hnq : isTypeStr (jlookup fields "type") "quote" = false :=
        isTypeStr_ne (jlookup fields "type") "ping" "quote" (by decide) hping
      have hne : isTypeStr (jlookup fields "type") "error" = false :=
        isTypeStr_ne (jlookup fields "type") "ping" "error" (by decide) hping
      simp [dispatchRule, hnq, hne]
    | null => simp [msgField, isTypeStr] at hping
    | bool b => simp [msgField, isTypeStr] at hping
    | num n => simp [msgField, isTypeStr] at hping
    | str s => simp [msgField, isTypeStr] at hping
    | arr elts => simp [msgField, isTypeStr] at hping

/-- C4 (witness): a concrete session dispatching a quote, a ping and an error
message per the dispatch rule. -/
theorem stream_dispatch_by_type_witness :
    (runStream ["2222"] (some (fun _ => none)) (some (fun _ => none))
      (.ok (Json.obj [("type", .str "hello")] ::
        ([Json.obj [("type", .str "subscribed")]] ++
         [Json.obj [("type", .str "quote"), ("symbol", .str "2222")],
          Json.obj [("type", .str "ping")],
          Json.obj [("type", .str "error"), ("message", .str "oops")]])))).dispatched =
      [Json.obj [("type", .str "quote"), ("symbol", .str "2222")],
       Json.obj [("type", .str "ping")],
       Json.obj [("type", .str "error"), ("message", .str "oops")]].filterMap dispatchRule :=
  (stream_dispatch_by_type ["2222"] (fun _ => none) (fun _ => none)
    (fun _ => rfl) (fun _ => rfl) [("type", .str "hello")]
    [Json.obj [("type", .str "subscribed")]]
    [Json.obj [("type", .str "quote"), ("symbol", .str "2222")],
     Json.obj [("type", .str "ping")],
     Json.obj [("type", .str "error"), ("message", .str "oops")]]
    rfl (by decide) rfl rfl).1

/-- C5: every public HTTP method issues a single GET request to the configured
base URL joined with its documented endpoint path, quote(symbol) to
/quote/symbol/, quotes(symbols) to /quotes/ with the symbols comma-joined as
the symbols parameter, and so on; every request carries the X-API-Key header
set to the client's API key, which __init__ installs on the session. -/
theorem client_get_requests_and_auth (c : SahmkClient) (symbol key bu : String)
    (symbols : List String) (fd td iv sy : Option String) (lim : Option Int)
    (timeout : Nat) (t : Except String HttpResponse) :
    (c.quote symbol t).1 =
      [{ method := "GET", url := c.base_url ++ ("/quote/" ++ symbol ++ "/"), params := [],
         headers := [("X-API-Key", c.api_key)] }] ∧
    (symbols.length ≤ 50 →
      (c.quotes symbols t).1 =
        [{ method := "GET", url := c.base_url ++ "/quotes/",
           params := [("symbols", Json.str (String.intercalate "," symbols))],
           headers := [("X-API-Key", c.api_key)] }]) ∧
    (c.historical symbol fd td iv t).1 =
      [{ method := "GET", url := c.base_url ++ ("/historical/" ++ symbol ++ "/"),
         params := optStrParam "from" fd ++ optStrParam "to" td ++ optStrParam "interval" iv,
         headers := [("X-API-Key", c.api_key)] }] ∧
    (c.market_summary t).1 =
      [{ method := "GET", url := c.base_url ++ "/market/summary/", params := [],
         headers := [("X-API-Key", c.api_key)] }] ∧
    (c.gainers lim t).1 =
      [{ method := "GET", url := c.base_url ++ "/market/gainers/",
         params := optIntParam "limit" lim, headers := [("X-API-Key", c.api_key)] }] ∧
    (c.losers lim t).1 =
      [{ method := "GET", url := c.base_url ++ "/market/losers/",
         params := optIntParam "limit" lim, headers := [("X-API-Key", c.api_key)] }] ∧
    (c.volume_leaders lim t).1 =
      [{ method := "GET", url := c.base_url ++ "/market/volume/",
         params := optIntParam "limit" lim, headers := [("X-API-Key", c.api_key)] }] ∧
    (c.value_leaders lim t).1 =
      [{ method := "GET", url := c.base_url ++ "/market/value/",
         params := optIntParam "limit" lim, headers := [("X-API-Key", c.api_key)] }] ∧
    (c.sectors t).1 =
      [{ method := "GET", url := c.base_url ++ "/market/sectors/", params := [],
         headers := [("X-API-Key", c.api_key)] }] ∧
    (c.company symbol t).1 =
      [{ method := "GET", url := c.base_url ++ ("/company/" ++ symbol ++ "/"), params := [],
         headers := [("X-API-Key", c.api_key)] }] ∧
    (c.financials symbol t).1 =
      [{ method := "GET", url := c.base_url ++ ("/financials/" ++ symbol ++ "/"), params := [],
         headers := [("X-API-Key", c.api_key)] }] ∧
    (c.dividends symbol t).1 =
      [{ method := "GET", url := c.base_url ++ ("/dividends/" ++ symbol ++ "/"), params := [],
         headers := [("X-API-Key", c.api_key)] }] ∧
    (c.events sy lim t).1 =
      [{ method := "GET", url := c.base_url ++ "/events/",
         params := optStrParam "symbol" sy ++ optIntParam "limit" lim,
         headers := [("X-API-Key", c.api_key)] }] ∧
    (SahmkClient.mk0 key (some bu) timeout).api_key = key ∧
    (SahmkClient.mk0 key (some bu) timeout).headers = [("X-API-Key", key)] := by
  refine ⟨rfl, ?_, rfl, rfl, rfl, rfl, rfl, rfl, rfl, rfl, rfl, rfl, rfl, rfl, rfl⟩
  intro h
  simp only [SahmkClient.quotes]
  rw [if_neg (by omega)]
  rfl

/-- C5 (witness): the concrete request issued by quotes on a small batch. -/
theorem client_get_requests_and_auth_witness :
    ((SahmkClient.mk0 "k" none 30).quotes ["2222", "1120"] (.error "x")).1 =
      [{ method := "GET", url := (SahmkClient.mk0 "k" none 30).base_url ++ "/quotes/",
         params := [("symbols", Json.str (String.intercalate "," ["2222", "1120"]))],
         headers := [("X-API-Key", (SahmkClient.mk0 "k" none 30).api_key)] }] :=
  ((client_get_requests_and_auth (SahmkClient.mk0 "k" none 30) "2222" "k" "b"
      ["2222", "1120"] none none none none none 30 (.error "x")).2).1 (by decide)

/-- C6 (counterexample): a network-level failure while opening the WebSocket
connection is not caught by stream, so the exception that escapes is the
websocket library's transport error, not a SahmkError. -/
theorem stream_connect_failure_not_sahmk :
    (runStream ["2222"] none none (.error "Connection refused")).outcome =
      .error (.wsConnectError "Connection refused") ∧
    PyExn.isSahmk (.wsConnectError "Connection refused") = false ∧
    raisesOnlySahmk (runStream ["2222"] none none (.error "Connection refused")).outcome = false :=
  ⟨rfl, rfl, rfl⟩

/-- C6 (amended): HTTP network failures, non-200 responses whose JSON error
body is absent or object-shaped (including 429), oversized quotes batches, and
WebSocket protocol-level handshake errors are all surfaced as SahmkError;
WebSocket connection failures, however, propagate the transport exception
(and a 200 body that is not JSON, or a non-200 JSON body that is not an
object, raise the respective foreign exceptions). -/
theorem failures_surfaced_as_sahmk (c : SahmkClient) (method endpoint : String)
    (params : List (String × Json)) (e : String) (resp : HttpResponse)
    (symbols53 symbols : List String) (t : Except String HttpResponse)
    (onQuote onError : Option (Json → Option String))
    (m0fields : List (String × Json)) (acks : List Json) (a : Json) (tail rest : List Json) :
    raisesOnlySahmk (c._request method endpoint params (.error e)).2 = true ∧
    (resp.status_code ≠ 200 → safeErrorBody resp.jsonBody = true →
      raisesOnlySahmk (handleResponse resp) = true) ∧
    (symbols53.length > 50 → raisesOnlySahmk (c.quotes symbols53 t).2 = true) ∧
    (isTypeStr (jlookup m0fields "type") "error" = true →
      raisesOnlySahmk (runStream symbols onQuote onError (.ok (Json.obj m0fields :: rest))).outcome = true) ∧
    (isTypeStr (jlookup m0fields "type") "error" = false →
      acks.all okHandshakeMsg = true → isErrorTyped a = true →
      acks.length < (pyBatches symbols).length →
      raisesOnlySahmk (runStream symbols onQuote onError
        (.ok (Json.obj m0fields :: (acks ++ a :: tail)))).outcome = true) := by
  refine ⟨rfl, ?_, ?_, ?_, ?_⟩
  · intro h200 hsafe
    have b200 : (resp.status_code != 200) = true := by simpa using h200
    unfold handleResponse
    by_cases h429 : (resp.status_code == 429) = true
    · simp [h429, raisesOnlySahmk, PyExn.isSahmk]
    · simp only [Bool.not_eq_true] at h429
      simp only [h429, Bool.false_eq_true, if_false, ite_false, b200, if_true, ite_true]
      cases hj : resp.jsonBody with
      | none => simp [raisesOnlySahmk, PyExn.isSahmk]
      | some body =>
        cases body with
        | obj bfields =>
          cases hce : (jlookup bfields "error").getD (.obj []) with
          | obj efields => simp [hce, raisesOnlySahmk, PyExn.isSahmk]
          | null => rw [hj] at hsafe; simp [safeErrorBody, hce] at hsafe
          | bool b => rw [hj] at hsafe; simp [safeErrorBody, hce] at hsafe
          | num n => rw [hj] at hsafe; simp [safeErrorBody, hce] at hsafe
          | str s => rw [hj] at hsafe; simp [safeErrorBody, hce] at hsafe
          | arr elts => rw [hj] at hsafe; simp [safeErrorBody, hce] at hsafe
        | null => rw [hj] at hsafe; simp [safeErrorBody] at hsafe
        | bool b => rw [hj] at hsafe; simp [safeErrorBody] at hsafe
        | num n => rw [hj] at hsafe; simp [safeErrorBody] at hsafe
        | str s => rw [hj] at hsafe; simp [safeErrorBody] at hsafe
        | arr elts => rw [hj] at hsafe; simp [safeErrorBody] at hsafe
  · intro h
    simp only [SahmkClient.quotes]
    rw [if_pos h]
    rfl
  · intro h
    simp [runStream, h, raisesOnlySahmk, PyExn.isSahmk]
  · intro h0 hall herr hlt
    rw [runStream_handshake_err_ack symbols onQuote onError m0fields acks a tail h0 hall herr hlt]
    rfl

/-- C6 (witness): concrete instances of each SahmkError-only failure mode:
network failure, non-200 response, oversized batch, rejected first message and
rejected subscribe acknowledgement. -/
theorem failures_surfaced_as_sahmk_witness :
    raisesOnlySahmk ((SahmkClient.mk0 "k" none 30)._request "GET" "/quotes/" [] (.error "timeout")).2 = true ∧
    raisesOnlySahmk (handleResponse { status_code := 500, jsonBody := none, text := "oops" }) = true ∧
    raisesOnlySahmk ((SahmkClient.mk0 "k" none 30).quotes (List.replicate 51 "2222") (.error "x")).2 = true ∧
    raisesOnlySahmk (runStream ["2222"] none none
      (.ok (Json.obj [("type", .str "error"), ("message", .str "bad key")] :: []))).outcome = true ∧
    raisesOnlySahmk (runStream (List.replicate 21 "2222") none none
      (.ok (Json.obj [("type", .str "hello")] ::
        ([Json.obj [("type", .str "subscribed")]] ++
          Json.obj [("type", .str "error"), ("message", .str "limit")] :: [])))).outcome = true := by
  have h := failures_surfaced_as_sahmk (SahmkClient.mk0 "k" none 30) "GET" "/quotes/" []
    "timeout" { status_code := 500, jsonBody := none, text := "oops" }
    (List.replicate 51 "2222") (List.replicate 21 "2222") (.error "x") none none
    [("type", .str "hello")] [Json.obj [("type", .str "subscribed")]]
    (Json.obj [("type", .str "error"), ("message", .str "limit")]) [] []
  refine ⟨h.1, h.2.1 (by decide) rfl, h.2.2.1 (by decide), ?_, h.2.2.2.2 rfl rfl rfl (by decide)⟩
  have h2 := failures_surfaced_as_sahmk (SahmkClient.mk0 "k" none 30) "GET" "/quotes/" []
    "timeout" { status_code := 500, jsonBody := none, text := "oops" }
    (List.replicate 51 "2222") ["2222"] (.error "x") none none
    [("type", .str "error"), ("message", .str "bad key")] [] .null [] []
  exact h2.2.2.2.1 rfl

/-- C8: on every path the streaming session can take in the embedding, the
keep-alive ping task is cancelled exactly when it was started: once the
receive loop is entered, leaving it (connection closed, handler exception or
any foreign exception) always runs the finally block that cancels the task, so
no background activity outlives the session. -/
theorem stream_ping_task_cancelled (symbols : List String)
    (onQuote onError : Option (Json → Option String))
    (connect : Except String (List Json)) :
    (runStream symbols onQuote onError connect).pingCancelled =
      (runStream symbols onQuote onError connect).pingStarted := by
  unfold runStream
  cases connect with
  | error e => rfl
  | ok incoming =>
    cases incoming with
    | nil => rfl
    | cons m rest =>
      cases m with
      | obj fields =>
        by_cases h : isTypeStr (jlookup fields "type") "error" = true
        · simp [h]
        · simp only [Bool.not_eq_true] at h
          simp only [h, Bool.false_eq_true, if_false, ite_false]
          cases hsl : (subscribeLoop (pyBatches symbols) rest).2 <;> simp [hsl]
      | null => rfl
      | bool b => rfl
      | num n => rfl
      | str s => rfl
      | arr elts => rfl

/-- C9: quotes with more than 50 symbols raises a SahmkError carrying no
status code and no error code without issuing any request; with at most 50
symbols exactly one request is issued. -/
theorem quotes_batch_size_limit (c : SahmkClient) (symbols : List String)
    (t : Except String HttpResponse) :
    (symbols.length > 50 →
      (c.quotes symbols t).1 = [] ∧
      (c.quotes symbols t).2 =
        .error (.sahmk { message := "Maximum 50 symbols per batch request",
                         status_code := none, error_code := none, response := none })) ∧
    (symbols.length ≤ 50 → (c.quotes symbols t).1.length = 1) := by
  constructor
  · intro h
    simp only [SahmkClient.quotes]
    rw [if_pos h]
    exact ⟨rfl, rfl⟩
  · intro h
    simp only [SahmkClient.quotes]
    rw [if_neg (by omega)]
    rfl

/-- C9 (witness): 51 symbols raise before any request; one symbol issues
exactly one request. -/
theorem quotes_batch_size_limit_witness :
    (((SahmkClient.mk0 "k" none 30).quotes (List.replicate 51 "2222") (.error "net")).1 = [] ∧
      ((SahmkClient.mk0 "k" none 30).quotes (List.replicate 51 "2222") (.error "net")).2 =
        .error (.sahmk { message := "Maximum 50 symbols per batch request",
                         status_code := none, error_code := none, response := none })) ∧
    ((SahmkClient.mk0 "k" none 30).quotes ["2222"] (.error "net")).1.length = 1 :=
  ⟨(quotes_batch_size_limit (SahmkClient.mk0 "k" none 30) (List.replicate 51 "2222")
      (.error "net")).1 (by decide),
   (quotes_batch_size_limit (SahmkClient.mk0 "k" none 30) ["2222"]
      (.error "net")).2 (by decide)⟩

/-- C10: stream reads one message before subscribing, and an "error"-typed
first message raises a SahmkError with no subscribe frame sent; when the
acknowledgement of some batch is "error"-typed (all earlier ones accepted),
stream raises a SahmkError having sent exactly the frames up to and including
that batch and no further subscribe frames. -/
theorem stream_handshake_error_aborts (symbols : List String)
    (onQuote onError : Option (Json → Option String))
    (m0fields : List (String × Json)) (acks : List Json) (a : Json) (tail rest : List Json) :
    (isTypeStr (jlookup m0fields "type") "error" = true →
      runStream symbols onQuote onError (.ok (Json.obj m0fields :: rest)) =
        { subscribesSent := [], dispatched := [], pingStarted := false, pingCancelled := false,
          outcome := .error (.sahmk { message := "WebSocket error: " ++ pyStrOpt (jlookup m0fields "message"),
                                      status_code := none, error_code := none,
                                      response := none }) }) ∧
    (isTypeStr (jlookup m0fields "type") "error" = false →
      acks.all okHandshakeMsg = true → isErrorTyped a = true →
      acks.length < (pyBatches symbols).length →
      runStream symbols onQuote onError (.ok (Json.obj m0fields :: (acks ++ a :: tail))) =
        { subscribesSent := ((pyBatches symbols).take (acks.length + 1)).map subscribeMsg,
          dispatched := [], pingStarted := false, pingCancelled := false,
          outcome := .error (.sahmk { message := "Subscribe error: " ++ pyStrOpt (msgField a "message"),
                                      status_code := none, error_code := none,
                                      response := none }) }) := by
  constructor
  · intro h
    simp [runStream, h]
  · intro h0 hall herr hlt
    exact runStream_handshake_err_ack symbols onQuote onError m0fields acks a tail h0 hall herr hlt

/-- C10 (witness): a rejected first message aborts with nothing sent; a
rejected second-batch acknowledgement aborts after exactly two of the frames
for 21 symbols. -/
theorem stream_handshake_error_aborts_witness :
    (runStream ["2222"] none none
      (.ok [Json.obj [("type", .str "error"), ("message", .str "bad key")]]) =
      { subscribesSent := [], dispatched := [], pingStarted := false, pingCancelled := false,
        outcome := .error (.sahmk { message := "WebSocket error: bad key",
                                    status_code := none, error_code := none,
                                    response := none }) }) ∧
    (runStream (List.replicate 21 "2222") none none
      (.ok (Json.obj [("type", .str "hello")] ::
        ([Json.obj [("type", .str "subscribed")]] ++
          Json.obj [("type", .str "error"), ("message", .str "limit reached")] :: []))) =
      { subscribesSent := ((pyBatches (List.replicate 21 "2222")).take 2).map subscribeMsg,
        dispatched := [], pingStarted := false, pingCancelled := false,
        outcome := .error (.sahmk { message := "Subscribe error: limit reached",
                                    status_code := none, error_code := none,
                                    response := none }) }) :=
  ⟨(stream_handshake_error_aborts ["2222"] none none
      [("type", .str "error"), ("message", .str "bad key")] [] .null [] []).1 rfl,
   (stream_handshake_error_aborts (List.replicate 21 "2222") none none
      [("type", .str "hello")] [Json.obj [("type", .str "subscribed")]]
      (Json.obj [("type", .str "error"), ("message", .str "limit reached")]) [] []).2
      rfl rfl rfl (by decide)⟩
